import Mathlib

/-!
Shallow embedding of `src/tp_mocking/weather_service.py` (class `WeatherService`)
and proofs about its operations.

Python values flowing through the service are JSON-shaped, with Python `None`
identified with JSON `null` (as `json.loads` does).  Numbers are modelled as
rationals; the code never performs arithmetic on them, only exact comparisons,
so Python int/float distinctions are not observable by the properties proved
here.  Operations that can raise an uncaught Python exception are modelled in
`Except PyErr`; `_make_request` catches every exception internally and so is
total.
-/

set_option autoImplicit false

/-- Python exception classes that can escape the service's methods. -/
inductive PyErr where
  | keyError
  | typeError
  | indexError
  | attributeError
  deriving DecidableEq, Repr

/-- JSON values (= the Python values produced by `response.json()` /
`json.load`).  `null` doubles as Python `None`. -/
inductive Json where
  | null
  | b (x : Bool)
  | num (q : ℚ)
  | str (s : String)
  | arr (xs : List Json)
  | obj (fields : List (String × Json))

/-- Python truthiness (`if data`) of a JSON value. -/
def Json.truthy : Json → Bool
  | .null => false
  | .b x => x
  | .num q => decide (q ≠ 0)
  | .str s => !s.isEmpty
  | .arr xs => !xs.isEmpty
  | .obj fs => !fs.isEmpty

/-- Whether the value is Python `None` (`x is None`). -/
def Json.isNull : Json → Bool
  | .null => true
  | _ => false

/-- Tests whether `needle` starts `hay` (character lists). -/
def listStartsWith : List Char → List Char → Bool
  | [], _ => true
  | _ :: _, [] => false
  | a :: as, b :: bs => a == b && listStartsWith as bs

/-- Tests whether `needle` occurs contiguously inside `hay` (character lists). -/
def listContainsSeq : List Char → List Char → Bool
  | needle, [] => listStartsWith needle []
  | needle, c :: t => listStartsWith needle (c :: t) || listContainsSeq needle t

/-- Python substring test `needle in hay` on strings. -/
def hasSubstr (needle hay : String) : Bool :=
  listContainsSeq needle.toList hay.toList

/-- Python `k in data` for a string key `k`: key membership for dicts, element
equality against the string for lists, substring test for strings, and
`TypeError` for the remaining (non-container) values. -/
def Json.hasKey : Json → String → Except PyErr Bool
  | .obj fs, k => .ok (fs.lookup k).isSome
  | .arr xs, k => .ok (xs.any fun j => match j with | .str s => s == k | _ => false)
  | .str s, k => .ok (hasSubstr k s)
  | _, _ => .error .typeError

/-- Python `data[k]` for a string key `k`: dict lookup raising `KeyError` when
the key is missing, and `TypeError` on every non-dict value (lists and strings
only accept integer indices). -/
def Json.getKey : Json → String → Except PyErr Json
  | .obj fs, k =>
    match fs.lookup k with
    | some v => .ok v
    | none => .error .keyError
  | _, _ => .error .typeError

/-- Python `data[i]` for a natural index `i`: list indexing raising
`IndexError` out of range, one-character strings for string indexing,
`KeyError` on JSON-parsed dicts (their keys are strings, never `i`), and
`TypeError` otherwise. -/
def Json.getIdx : Json → Nat → Except PyErr Json
  | .arr xs, i =>
    match xs.get? i with
    | some v => .ok v
    | none => .error .indexError
  | .str s, i =>
    match s.toList.get? i with
    | some c => .ok (.str (String.singleton c))
    | none => .error .indexError
  | .obj _, _ => .error .keyError
  | _, _ => .error .typeError

/-- Lower-casing of a string, character by character (ASCII case folding; the
condition strings this service inspects, such as "Rain" or "Clear", are
ASCII). -/
def strLower (s : String) : String :=
  ⟨s.data.map Char.toLower⟩

/-- Python `data.lower()`: defined on strings, `AttributeError` otherwise. -/
def Json.pyLower : Json → Except PyErr String
  | .str s => .ok (strLower s)
  | _ => .error .attributeError

/-- Numeric view used by Python comparisons: numbers are themselves, booleans
coerce to 0/1 (Python `bool` is an `int` subtype). -/
def Json.asNum : Json → Option ℚ
  | .num q => some q
  | .b true => some 1
  | .b false => some 0
  | _ => none

/-- Python `a > b` on service values: numeric comparison when both sides are
numbers/booleans, lexicographic comparison of strings, and `TypeError` for the
remaining mixed or non-comparable cases.  (Python also compares two lists
element-wise; no value reaching a comparison in this development is a list, so
that case is modelled as the non-comparable one.) -/
def Json.pyGt (a b : Json) : Except PyErr Bool :=
  match a.asNum, b.asNum with
  | some x, some y => .ok (decide (y < x))
  | _, _ =>
    match a, b with
    | .str s, .str t => .ok (compare t s == Ordering.lt)
    | _, _ => .error .typeError

/-- Rendering of a value inside an f-string (`str(x)`).  Integral rationals
print like Python floats (`28.0`); other numbers print in rational notation
and composite values are abbreviated — no property proved here depends on the
rendering, only on it being applied identically on both sides. -/
def fmtQ (q : ℚ) : String :=
  if q.den == 1 then toString q.num ++ ".0" else toString q

/-- Rendering of a service value inside an f-string. -/
def Json.pyFmt : Json → String
  | .null => "None"
  | .b true => "True"
  | .b false => "False"
  | .num q => fmtQ q
  | .str s => s
  | .arr _ => "[...]"
  | .obj _ => "{...}"

/-- Configuration read from the environment in `WeatherService.__init__`. -/
structure Service where
  base_url : String
  api_key : String

/-- An outbound HTTP GET request as issued by `requests.get(url, params=...)`. -/
structure HttpReq where
  url : String
  params : List (String × Json)

/-- Outcome of `requests.get`: a raised exception, or a response carrying a
status code and, when the body is valid JSON, its parse (`none` models a body
on which `response.json()` raises). -/
inductive NetResult where
  | exn
  | resp (status : Nat) (body : Option Json)

/-- The request `_make_request` builds: `{base_url}/{endpoint}` with the given
params extended by `appid` and `units=metric`. -/
def mkHttpReq (svc : Service) (endpoint : String) (params : List (String × Json)) : HttpReq :=
  ⟨svc.base_url ++ "/" ++ endpoint,
   params ++ [("appid", Json.str svc.api_key), ("units", Json.str "metric")]⟩

/-- `WeatherService._make_request`.  The `try` block catches every exception
(`requests.get` failures, `raise_for_status` — which raises exactly for
status codes 400–599 — and `response.json()` on non-JSON bodies) and returns
`None`, modelled as `Json.null`. -/
def make_request (svc : Service) (net : HttpReq → NetResult)
    (endpoint : String) (params : List (String × Json)) : Json :=
  match net (mkHttpReq svc endpoint params) with
  | .exn => Json.null
  | .resp status body =>
    if 400 ≤ status ∧ status < 600 then Json.null
    else body.getD Json.null

/-- `WeatherService.get_temperature`:
`data["main"]["temp"] if data and "main" in data else None`. -/
def get_temperature (svc : Service) (net : HttpReq → NetResult) (city : String) :
    Except PyErr Json :=
  let data := make_request svc net "weather" [("q", Json.str city)]
  if data.truthy then
    match data.hasKey "main" with
    | .error e => .error e
    | .ok true =>
      match data.getKey "main" with
      | .error e => .error e
      | .ok m => m.getKey "temp"
    | .ok false => .ok Json.null
  else .ok Json.null

/-- `WeatherService.get_forecast`: requests endpoint `forecast` with
`cnt = days * 8`, returns `None` when the body is falsy or lacks `"list"`,
else `data["list"]`. -/
def get_forecast (svc : Service) (net : HttpReq → NetResult) (city : String) (days : ℤ) :
    Except PyErr Json :=
  let data := make_request svc net "forecast"
    [("q", Json.str city), ("cnt", Json.num ((days : ℚ) * 8))]
  if data.truthy then
    match data.hasKey "list" with
    | .error e => .error e
    | .ok true => data.getKey "list"
    | .ok false => .ok Json.null
  else .ok Json.null

/-- `WeatherService.is_good_weather`: `None` when the body is falsy or lacks
`"main"` or `"weather"`; otherwise evaluates, in the source's order,
`data["main"]["temp"]`, `data["weather"][0]["main"].lower()`, and returns
`temp > 20 and "rain" not in weather_condition`. -/
def is_good_weather (svc : Service) (net : HttpReq → NetResult) (city : String) :
    Except PyErr Json :=
  let data := make_request svc net "weather" [("q", Json.str city)]
  if data.truthy then
    match data.hasKey "main" with
    | .error e => .error e
    | .ok false => .ok Json.null
    | .ok true =>
      match data.hasKey "weather" with
      | .error e => .error e
      | .ok false => .ok Json.null
      | .ok true => do
        let m ← data.getKey "main"
        let temp ← m.getKey "temp"
        let w ← data.getKey "weather"
        let w0 ← w.getIdx 0
        let wm ← w0.getKey "main"
        let cond ← wm.pyLower
        let gt ← temp.pyGt (Json.num 20)
        if gt then pure (Json.b (!hasSubstr "rain" cond))
        else pure (Json.b false)
  else .ok Json.null

/-- The sentinel message `compare_cities` returns when a lookup is absent. -/
def cannotCompareMsg : String := "Impossible de comparer les villes"

/-- `WeatherService.compare_cities`: looks up both temperatures (city1 first),
returns the sentinel when either is `None`, else one of the three formatted
messages. -/
def compare_cities (svc : Service) (net : HttpReq → NetResult) (city1 city2 : String) :
    Except PyErr Json :=
  match get_temperature svc net city1 with
  | .error e => .error e
  | .ok temp1 =>
    match get_temperature svc net city2 with
    | .error e => .error e
    | .ok temp2 =>
      if temp1.isNull || temp2.isNull then .ok (.str cannotCompareMsg)
      else
        match temp1.pyGt temp2 with
        | .error e => .error e
        | .ok true => .ok (.str (city1 ++ " est plus chaud que " ++ city2 ++ " (" ++
            temp1.pyFmt ++ "°C > " ++ temp2.pyFmt ++ "°C)"))
        | .ok false =>
          match temp2.pyGt temp1 with
          | .error e => .error e
          | .ok true => .ok (.str (city2 ++ " est plus chaud que " ++ city1 ++ " (" ++
              temp2.pyFmt ++ "°C > " ++ temp1.pyFmt ++ "°C)"))
          | .ok false => .ok (.str ("Les deux villes ont la même température (" ++
              temp1.pyFmt ++ "°C)"))

/-- State of the log file: missing, present with non-JSON content, or present
with content parsing to a JSON value. -/
inductive FileState where
  | absent
  | invalid
  | json (v : Json)

/-- Filesystem operations `save_weather_report` performs, in order. -/
inductive FsOp where
  | read
  | write
  deriving DecidableEq, Repr

/-- Result of a `save_weather_report` call that did not raise: the returned
boolean, the file state after the call, and the filesystem operations made. -/
structure SaveOutcome where
  ret : Bool
  fs : FileState
  ops : List FsOp

/-- The report dict built by `save_weather_report`. -/
def mkReport (city : String) (temp : Json) (now : String) : Json :=
  .obj [("city", .str city), ("temperature", temp), ("timestamp", .str now)]

/-- The `try: json.load ... except (FileNotFoundError, json.JSONDecodeError):
reports = []` block followed by `reports.append`: a missing file or invalid
JSON yields the empty list, a JSON array yields its elements, and any other
JSON value makes `reports.append(report)` raise `AttributeError`. -/
def readPrior : FileState → Except PyErr (List Json)
  | .absent => .ok []
  | .invalid => .ok []
  | .json (.arr xs) => .ok xs
  | .json _ => .error .attributeError

/-- `WeatherService.save_weather_report` with the call-time timestamp `now`
passed explicitly (the source reads `datetime.now().isoformat()`), acting on
the state `fs` of the file `filename`. -/
def save_weather_report (svc : Service) (net : HttpReq → NetResult)
    (city : String) (now : String) (fs : FileState) : Except PyErr SaveOutcome :=
  match get_temperature svc net city with
  | .error e => .error e
  | .ok temp =>
    if temp.isNull then .ok ⟨false, fs, []⟩
    else
      match readPrior fs with
      | .error e => .error e
      | .ok reports =>
        .ok ⟨true, .json (.arr (reports ++ [mkReport city temp now])), [.read, .write]⟩

/-- One invocation in a sequence of `save_weather_report` calls: its network
environment, city, call-time timestamp, and the value its temperature lookup
returns. -/
structure SaveCall where
  net : HttpReq → NetResult
  city : String
  now : String
  temp : Json

/-- Runs a sequence of `save_weather_report` calls against the same file,
threading the file state; a raised exception aborts the sequence. -/
def run_saves (svc : Service) : List SaveCall → FileState → Except PyErr FileState
  | [], fs => .ok fs
  | c :: rest, fs =>
    match save_weather_report svc c.net c.city c.now fs with
    | .error e => .error e
    | .ok r => run_saves svc rest r.fs

/-- The report list built by a sequence of calls. -/
def reportsOf (calls : List SaveCall) : List Json :=
  calls.map fun c => mkReport c.city c.temp c.now

/-- The `weather` request a lookup for `city` issues. -/
def weatherReq (svc : Service) (city : String) : HttpReq :=
  mkHttpReq svc "weather" [("q", Json.str city)]

/-- The `forecast` request issued for `city` over `days` days. -/
def forecastReq (svc : Service) (city : String) (days : ℤ) : HttpReq :=
  mkHttpReq svc "forecast" [("q", Json.str city), ("cnt", Json.num ((days : ℚ) * 8))]

/-! ### Concrete fixtures used by witnesses and counterexamples -/

/-- A concrete configuration. -/
def svcX : Service := ⟨"http://api.test", "key123"⟩

/-- A well-formed success body for Paris (temperature 25.5, condition Clear). -/
def bodyParis : Json :=
  .obj [("main", .obj [("temp", .num (mkRat 51 2))]),
        ("weather", .arr [.obj [("main", .str "Clear")]])]

/-- A transport that always answers 200 with `bodyParis`. -/
def netParis : HttpReq → NetResult := fun _ => .resp 200 (some bodyParis)

/-- A transport that always answers 200 with a body whose temperature is 22. -/
def netLyon : HttpReq → NetResult := fun _ =>
  .resp 200 (some (.obj [("main", .obj [("temp", .num 22)])]))

/-- A transport that always answers 404 with a city-not-found body. -/
def net404 : HttpReq → NetResult := fun _ =>
  .resp 404 (some (.obj [("cod", .str "404"), ("message", .str "city not found")]))

/-- A transport on which every request raises. -/
def netDown : HttpReq → NetResult := fun _ => .exn

/-- A transport answering 28 for Paris and 22 for any other city. -/
def netTwo : HttpReq → NetResult := fun req =>
  match req.params.lookup "q" with
  | some (.str "Paris") => .resp 200 (some (.obj [("main", .obj [("temp", .num 28)])]))
  | _ => .resp 200 (some (.obj [("main", .obj [("temp", .num 22)])]))

/-- A transport where city A is not found (absent temperature) while any other
city gets a body whose `main` object lacks `temp`. -/
def netMix : HttpReq → NetResult := fun req =>
  match req.params.lookup "q" with
  | some (.str "A") => .resp 200 (some (.obj [("cod", .str "404")]))
  | _ => .resp 200 (some (.obj [("main", .obj [])]))

/-- A 200 response whose `main` field is a number instead of an object. -/
def netMalformed : HttpReq → NetResult := fun _ =>
  .resp 200 (some (.obj [("main", .num 5)]))

/-- A 300 (non-2xx, non-error) response with a well-formed body. -/
def netRedirect : HttpReq → NetResult := fun _ =>
  .resp 300 (some (.obj [("main", .obj [("temp", .num 7)])]))

/-- A 200 response whose `main` field is JSON `null`. -/
def netMainNull : HttpReq → NetResult := fun _ =>
  .resp 200 (some (.obj [("main", Json.null)]))

/-- A 200 response where `main` and `weather` are both numbers. -/
def netBothBad : HttpReq → NetResult := fun _ =>
  .resp 200 (some (.obj [("main", .num 1), ("weather", .num 1)]))

/-- A 200 response with temperature 25 and condition Rain. -/
def netRain : HttpReq → NetResult := fun _ =>
  .resp 200 (some (.obj [("main", .obj [("temp", .num 25)]),
                         ("weather", .arr [.obj [("main", .str "Rain")]])]))

/-- A 200 response whose whole body is the number 5. -/
def netNum5 : HttpReq → NetResult := fun _ => .resp 200 (some (.num 5))

/-- A 200 forecast response with a two-entry `list`. -/
def netForecast : HttpReq → NetResult := fun _ =>
  .resp 200 (some (.obj [("list", .arr [.num 1, .num 2])]))

/-- Two consecutive save calls (Paris at 25.5, then Lyon at 22). -/
def callsW : List SaveCall :=
  [⟨netParis, "Paris", "2023-01-01T12:00:00", .num (mkRat 51 2)⟩,
   ⟨netLyon, "Lyon", "2023-01-01T13:00:00", .num 22⟩]

/-! ### Helper lemmas about `save_weather_report` -/

theorem Json.isNull_eq_false_iff (t : Json) : t.isNull = false ↔ t ≠ Json.null := by
  cases t <;> simp [Json.isNull]

/-- A call whose temperature lookup returns `None` fails without touching the file. -/
theorem save_of_null_temp (svc : Service) (net : HttpReq → NetResult)
    (city now : String) (fs : FileState)
    (h : get_temperature svc net city = .ok Json.null) :
    save_weather_report svc net city now fs = .ok ⟨false, fs, []⟩ := by
  simp [save_weather_report, h, Json.isNull]

/-- A successful call on a file holding a JSON array appends the new report. -/
theorem save_of_arr (svc : Service) (net : HttpReq → NetResult)
    (city now : String) (t : Json) (xs : List Json)
    (h : get_temperature svc net city = .ok t) (hn : t ≠ Json.null) :
    save_weather_report svc net city now (.json (.arr xs)) =
      .ok ⟨true, .json (.arr (xs ++ [mkReport city t now])), [.read, .write]⟩ := by
  simp [save_weather_report, h, (Json.isNull_eq_false_iff t).mpr hn, readPrior]

/-- A successful call on a missing or corrupt file starts a fresh one-report log. -/
theorem save_of_fresh (svc : Service) (net : HttpReq → NetResult)
    (city now : String) (t : Json) (fs : FileState)
    (h : get_temperature svc net city = .ok t) (hn : t ≠ Json.null)
    (hfs : fs = .absent ∨ fs = .invalid) :
    save_weather_report svc net city now fs =
      .ok ⟨true, .json (.arr [mkReport city t now]), [.read, .write]⟩ := by
  rcases hfs with rfl | rfl <;>
    simp [save_weather_report, h, (Json.isNull_eq_false_iff t).mpr hn, readPrior]

/-- A successful lookup over a file holding well-formed JSON that is not an
array raises `AttributeError` (from `reports.append`). -/
theorem save_of_nonarray (svc : Service) (net : HttpReq → NetResult)
    (city now : String) (t : Json) (v : Json)
    (h : get_temperature svc net city = .ok t) (hn : t ≠ Json.null)
    (hv : ∀ xs, v ≠ .arr xs) :
    save_weather_report svc net city now (.json v) = .error .attributeError := by
  have hp : readPrior (.json v) = .error .attributeError := by
    cases v with
    | arr xs => exact absurd rfl (hv xs)
    | null => rfl
    | b x => rfl
    | num q => rfl
    | str s => rfl
    | obj fs => rfl
  simp [save_weather_report, h, (Json.isNull_eq_false_iff t).mpr hn, hp]

/-- Running successful calls over a file holding a JSON array appends one
report per call, in order. -/
theorem run_saves_of_arr (svc : Service) (calls : List SaveCall) (xs : List Json)
    (H : ∀ c ∈ calls, get_temperature svc c.net c.city = .ok c.temp ∧ c.temp ≠ Json.null) :
    run_saves svc calls (.json (.arr xs)) = .ok (.json (.arr (xs ++ reportsOf calls))) := by
  induction calls generalizing xs with
  | nil => simp [run_saves, reportsOf]
  | cons c rest ih =>
    obtain ⟨h1, h2⟩ := H c (List.mem_cons_self c rest)
    have hrest : ∀ c' ∈ rest, get_temperature svc c'.net c'.city = .ok c'.temp ∧
        c'.temp ≠ Json.null := fun c' hc' => H c' (List.mem_cons_of_mem c hc')
    simp only [run_saves, save_of_arr svc c.net c.city c.now c.temp xs h1 h2,
      ih (xs ++ [mkReport c.city c.temp c.now]) hrest, reportsOf, List.map_cons,
      List.append_assoc, List.singleton_append]

/-! ### Helper lemmas about `compare_cities` -/

/-- When both lookups complete and either is `None`, the sentinel is returned. -/
theorem compare_sentinel_of_null (svc : Service) (net : HttpReq → NetResult)
    (c1 c2 : String) (v1 v2 : Json)
    (h1 : get_temperature svc net c1 = .ok v1)
    (h2 : get_temperature svc net c2 = .ok v2)
    (habs : v1 = Json.null ∨ v2 = Json.null) :
    compare_cities svc net c1 c2 = .ok (.str cannotCompareMsg) := by
  rcases habs with rfl | rfl <;> simp [compare_cities, h1, h2, Json.isNull]

/-- When both lookups return numbers, `compare_cities` reduces to a three-way
case split on the exact comparison. -/
theorem compare_of_nums (svc : Service) (net : HttpReq → NetResult)
    (c1 c2 : String) (q1 q2 : ℚ)
    (h1 : get_temperature svc net c1 = .ok (.num q1))
    (h2 : get_temperature svc net c2 = .ok (.num q2)) :
    compare_cities svc net c1 c2 =
      if q2 < q1 then
        .ok (.str (c1 ++ " est plus chaud que " ++ c2 ++ " (" ++
          fmtQ q1 ++ "°C > " ++ fmtQ q2 ++ "°C)"))
      else if q1 < q2 then
        .ok (.str (c2 ++ " est plus chaud que " ++ c1 ++ " (" ++
          fmtQ q2 ++ "°C > " ++ fmtQ q1 ++ "°C)"))
      else
        .ok (.str ("Les deux villes ont la même température (" ++ fmtQ q1 ++ "°C)")) := by
  rcases lt_trichotomy q1 q2 with h | h | h
  · have h' : ¬ q2 < q1 := not_lt.mpr h.le
    simp [compare_cities, h1, h2, Json.isNull, Json.pyGt, Json.asNum, Json.pyFmt, h, h']
  · subst h
    simp [compare_cities, h1, h2, Json.isNull, Json.pyGt, Json.asNum, Json.pyFmt, lt_irrefl]
  · have h' : ¬ q1 < q2 := not_lt.mpr h.le
    simp [compare_cities, h1, h2, Json.isNull, Json.pyGt, Json.asNum, Json.pyFmt, h, h']

/-! ### Helper lemmas about the read path -/

/-- A falsy body makes `get_temperature` return `None`. -/
theorem get_temperature_of_null (svc : Service) (net : HttpReq → NetResult) (city : String)
    (h : make_request svc net "weather" [("q", Json.str city)] = Json.null) :
    get_temperature svc net city = .ok Json.null := by
  simp [get_temperature, h, Json.truthy]

/-- An object body lacking `"main"` makes `get_temperature` return `None`. -/
theorem get_temperature_of_no_main (svc : Service) (net : HttpReq → NetResult) (city : String)
    (fs : List (String × Json))
    (h : make_request svc net "weather" [("q", Json.str city)] = .obj fs)
    (hm : fs.lookup "main" = none) :
    get_temperature svc net city = .ok Json.null := by
  cases fs with
  | nil => simp [get_temperature, h, Json.truthy]
  | cons a l => simp [get_temperature, h, Json.truthy, Json.hasKey, hm]

/-- An object body whose `"main"` is an object with a `"temp"` entry makes
`get_temperature` return that entry. -/
theorem get_temperature_of_shape (svc : Service) (net : HttpReq → NetResult) (city : String)
    (fs ms : List (String × Json)) (t : Json)
    (h : make_request svc net "weather" [("q", Json.str city)] = .obj fs)
    (hm : fs.lookup "main" = some (.obj ms))
    (ht : ms.lookup "temp" = some t) :
    get_temperature svc net city = .ok t := by
  cases fs with
  | nil => simp at hm
  | cons a l =>
    simp [get_temperature, h, Json.truthy, Json.hasKey, Json.getKey, hm, ht]

/-- A falsy body makes `is_good_weather` return `None`. -/
theorem is_good_weather_of_null (svc : Service) (net : HttpReq → NetResult) (city : String)
    (h : make_request svc net "weather" [("q", Json.str city)] = Json.null) :
    is_good_weather svc net city = .ok Json.null := by
  simp [is_good_weather, h, Json.truthy]

/-- An object body lacking `"main"` makes `is_good_weather` return `None`. -/
theorem is_good_weather_of_no_main (svc : Service) (net : HttpReq → NetResult) (city : String)
    (fs : List (String × Json))
    (h : make_request svc net "weather" [("q", Json.str city)] = .obj fs)
    (hm : fs.lookup "main" = none) :
    is_good_weather svc net city = .ok Json.null := by
  cases fs with
  | nil => simp [is_good_weather, h, Json.truthy]
  | cons a l => simp [is_good_weather, h, Json.truthy, Json.hasKey, hm]

/-- An object body with `"main"` but lacking `"weather"` makes
`is_good_weather` return `None`. -/
theorem is_good_weather_of_no_weather (svc : Service) (net : HttpReq → NetResult) (city : String)
    (fs : List (String × Json))
    (h : make_request svc net "weather" [("q", Json.str city)] = .obj fs)
    (hm : (fs.lookup "main").isSome)
    (hw : fs.lookup "weather" = none) :
    is_good_weather svc net city = .ok Json.null := by
  cases fs with
  | nil => simp at hm
  | cons a l => simp [is_good_weather, h, Json.truthy, Json.hasKey, hm, hw]

/-- On a fully well-shaped body, `is_good_weather` returns the boolean
`temp > 20 and "rain" not in condition.lower()`. -/
theorem is_good_weather_of_shape (svc : Service) (net : HttpReq → NetResult) (city : String)
    (fs ms wfs : List (String × Json)) (q : ℚ) (ws : List Json) (cond : String)
    (h : make_request svc net "weather" [("q", Json.str city)] = .obj fs)
    (hm : fs.lookup "main" = some (.obj ms))
    (ht : ms.lookup "temp" = some (.num q))
    (hw : fs.lookup "weather" = some (.arr (.obj wfs :: ws)))
    (hc : wfs.lookup "main" = some (.str cond)) :
    is_good_weather svc net city =
      .ok (.b (decide (20 < q) && !hasSubstr "rain" (strLower cond))) := by
  cases fs with
  | nil => simp at hm
  | cons a l =>
    by_cases hq : (20 : ℚ) < q <;>
      simp [is_good_weather, h, Json.truthy, Json.hasKey, Json.getKey, Json.getIdx,
        Json.pyLower, Json.pyGt, Json.asNum, hm, ht, hw, hc, hq, Bind.bind, Except.bind,
        pure, Except.pure]

/-- A falsy body makes `get_forecast` return `None`. -/
theorem get_forecast_of_null (svc : Service) (net : HttpReq → NetResult)
    (city : String) (days : ℤ)
    (h : make_request svc net "forecast"
      [("q", Json.str city), ("cnt", Json.num ((days : ℚ) * 8))] = Json.null) :
    get_forecast svc net city days = .ok Json.null := by
  simp [get_forecast, h, Json.truthy]

/-- On an object body, `get_forecast` returns the `"list"` entry when present
and `None` when missing — an ordinary value either way. -/
theorem get_forecast_of_obj (svc : Service) (net : HttpReq → NetResult)
    (city : String) (days : ℤ) (gs : List (String × Json))
    (h : make_request svc net "forecast"
      [("q", Json.str city), ("cnt", Json.num ((days : ℚ) * 8))] = .obj gs) :
    (gs.lookup "list" = none → get_forecast svc net city days = .ok Json.null)
    ∧ ∀ v, gs.lookup "list" = some v → get_forecast svc net city days = .ok v := by
  constructor
  · intro hl
    cases gs with
    | nil => simp [get_forecast, h, Json.truthy]
    | cons a l => simp [get_forecast, h, Json.truthy, Json.hasKey, hl]
  · intro v hl
    cases gs with
    | nil => simp at hl
    | cons a l => simp [get_forecast, h, Json.truthy, Json.hasKey, Json.getKey, hl]

/-! ### Claim theorems -/

/-- Claim C1: for every sequence of successful `save_weather_report` calls
against the same file starting from an absent file, the state after the
(i+1)-st call is a JSON array holding exactly i+1 entries, namely the reports
of the first i+1 calls in call order, each matching its call's city,
looked-up temperature and timestamp — so each call increases the stored
length by exactly one and preserves all earlier entries. -/
theorem save_report_sequence_spec (svc : Service) (calls : List SaveCall)
    (H : ∀ c ∈ calls, get_temperature svc c.net c.city = .ok c.temp ∧ c.temp ≠ Json.null) :
    ∀ i < calls.length,
      run_saves svc (calls.take (i + 1)) .absent =
        .ok (.json (.arr (reportsOf (calls.take (i + 1))))) := by
  intro i hi
  cases calls with
  | nil => simp at hi
  | cons c rest =>
    obtain ⟨h1, h2⟩ := H c (List.mem_cons_self c rest)
    have hrest : ∀ c' ∈ rest.take i,
        get_temperature svc c'.net c'.city = .ok c'.temp ∧ c'.temp ≠ Json.null :=
      fun c' hc' => H c' (List.mem_cons_of_mem c (List.take_subset i rest hc'))
    simp only [List.take_succ_cons, run_saves,
      save_of_fresh svc c.net c.city c.now c.temp .absent h1 h2 (Or.inl rfl),
      run_saves_of_arr svc (rest.take i) [mkReport c.city c.temp c.now] hrest,
      reportsOf, List.map_cons, List.singleton_append]

/-- Claim C1 witness: two successful calls (Paris then Lyon) starting from an
absent file leave a two-entry log in call order. -/
theorem save_report_sequence_spec_witness :
    run_saves svcX (callsW.take (1 + 1)) .absent =
      .ok (.json (.arr (reportsOf (callsW.take (1 + 1))))) := by
  refine save_report_sequence_spec svcX callsW ?_ 1 (by decide)
  intro c hc
  rcases List.mem_cons.mp hc with rfl | hc
  · exact ⟨rfl, fun h => Json.noConfusion h⟩
  rcases List.mem_cons.mp hc with rfl | hc
  · exact ⟨rfl, fun h => Json.noConfusion h⟩
  · cases hc

/-- Claim C5: when the temperature lookup returns `None`, the save returns
`false`, performs no filesystem operation, and leaves the file exactly as it
was. -/
theorem save_absent_temp_spec (svc : Service) (net : HttpReq → NetResult)
    (city now : String) (fs : FileState)
    (h : get_temperature svc net city = .ok Json.null) :
    save_weather_report svc net city now fs = .ok ⟨false, fs, []⟩ :=
  save_of_null_temp svc net city now fs h

/-- Claim C5 witness: a 404 city leaves an existing one-entry log untouched
and the call returns `false` with no filesystem operations. -/
theorem save_absent_temp_spec_witness :
    save_weather_report svcX net404 "VilleInexistante" "2023-01-01T12:00:00"
        (.json (.arr [mkReport "Lyon" (.num 22) "2023-01-01T10:00:00"])) =
      .ok ⟨false, .json (.arr [mkReport "Lyon" (.num 22) "2023-01-01T10:00:00"]), []⟩ :=
  save_absent_temp_spec svcX net404 "VilleInexistante" "2023-01-01T12:00:00"
    (.json (.arr [mkReport "Lyon" (.num 22) "2023-01-01T10:00:00"])) rfl

/-- Claim C6: when the prior file is missing or holds invalid JSON and the
temperature lookup succeeds, the save does not raise, treats the prior
sequence as empty, and leaves the file holding a one-entry JSON array. -/
theorem save_fresh_log_spec (svc : Service) (net : HttpReq → NetResult)
    (city now : String) (t : Json) (fs : FileState)
    (h : get_temperature svc net city = .ok t) (hn : t ≠ Json.null)
    (hfs : fs = .absent ∨ fs = .invalid) :
    save_weather_report svc net city now fs =
      .ok ⟨true, .json (.arr [mkReport city t now]), [.read, .write]⟩ :=
  save_of_fresh svc net city now t fs h hn hfs

/-- Claim C6 witness: saving Paris over a corrupt-JSON file starts a fresh
one-entry log. -/
theorem save_fresh_log_spec_witness :
    save_weather_report svcX netParis "Paris" "2023-01-01T12:00:00" .invalid =
      .ok ⟨true, .json (.arr [mkReport "Paris" (.num (mkRat 51 2)) "2023-01-01T12:00:00"]),
        [.read, .write]⟩ :=
  save_fresh_log_spec svcX netParis "Paris" "2023-01-01T12:00:00"
    (.num (mkRat 51 2)) .invalid rfl (fun h => Json.noConfusion h) (Or.inr rfl)

/-- Claim C10: when the prior file holds valid JSON that is not an array and
the temperature lookup succeeds, the save raises an uncaught error
(`AttributeError` from `reports.append`) instead of recovering. -/
theorem save_nonarray_raises_spec (svc : Service) (net : HttpReq → NetResult)
    (city now : String) (t v : Json)
    (h : get_temperature svc net city = .ok t) (hn : t ≠ Json.null)
    (hv : ∀ xs, v ≠ .arr xs) :
    save_weather_report svc net city now (.json v) = .error .attributeError :=
  save_of_nonarray svc net city now t v h hn hv

/-- Claim C10 witness: saving over a file holding a JSON object raises
`AttributeError`. -/
theorem save_nonarray_raises_spec_witness :
    save_weather_report svcX netParis "Paris" "2023-01-01T12:00:00"
        (.json (.obj [("a", .num 1)])) = .error .attributeError :=
  save_nonarray_raises_spec svcX netParis "Paris" "2023-01-01T12:00:00"
    (.num (mkRat 51 2)) (.obj [("a", .num 1)]) rfl
    (fun h => Json.noConfusion h) (fun _ h => Json.noConfusion h)

/-- Claim C7 (amended): whenever both underlying temperature lookups complete
without raising and either returns `None` — regardless of which one —
`compare_cities` returns the fixed sentinel message, not an exception.  (The
amendment: if the other lookup raises, the exception propagates instead; see
the counterexample.) -/
theorem compare_cities_sentinel_spec (svc : Service) (net : HttpReq → NetResult)
    (c1 c2 : String) (v1 v2 : Json)
    (h1 : get_temperature svc net c1 = .ok v1)
    (h2 : get_temperature svc net c2 = .ok v2)
    (habs : v1 = Json.null ∨ v2 = Json.null) :
    compare_cities svc net c1 c2 = .ok (.str cannotCompareMsg) :=
  compare_sentinel_of_null svc net c1 c2 v1 v2 h1 h2 habs

/-- Claim C7 witness: with both cities unknown (404), the sentinel message is
returned. -/
theorem compare_cities_sentinel_spec_witness :
    compare_cities svcX net404 "X" "Y" = .ok (.str cannotCompareMsg) :=
  compare_cities_sentinel_spec svcX net404 "X" "Y" Json.null Json.null rfl rfl (Or.inl rfl)

/-- Claim C7 counterexample: city A's lookup is absent (`None`), yet
`compare_cities` raises `KeyError` instead of returning the sentinel, because
the second city's lookup raises on its malformed body.  This refutes the
claim that the sentinel is returned whenever either lookup is absent. -/
theorem compare_cities_claim_cex :
    get_temperature svcX netMix "A" = .ok Json.null
    ∧ compare_cities svcX netMix "A" "B" = .error .keyError :=
  ⟨rfl, rfl⟩

/-- Claim C8: with both temperatures present as numbers, `compare_cities` is
antisymmetric in its message content — swapping the two cities yields the
very message with the city names and temperatures swapped (the two renderings
coincide, both naming the warmer city) — and exactly equal temperatures yield
the same-temperature message. -/
theorem compare_cities_swap_spec (svc : Service) (net : HttpReq → NetResult)
    (cA cB : String) (q1 q2 : ℚ)
    (h1 : get_temperature svc net cA = .ok (.num q1))
    (h2 : get_temperature svc net cB = .ok (.num q2)) :
    compare_cities svc net cA cB = compare_cities svc net cB cA
    ∧ (q2 < q1 → compare_cities svc net cA cB =
        .ok (.str (cA ++ " est plus chaud que " ++ cB ++ " (" ++
          fmtQ q1 ++ "°C > " ++ fmtQ q2 ++ "°C)")))
    ∧ (q1 = q2 → compare_cities svc net cA cB =
        .ok (.str ("Les deux villes ont la même température (" ++ fmtQ q1 ++ "°C)"))) := by
  refine ⟨?_, ?_, ?_⟩
  · rw [compare_of_nums svc net cA cB q1 q2 h1 h2, compare_of_nums svc net cB cA q2 q1 h2 h1]
    rcases lt_trichotomy q1 q2 with h | h | h
    · simp [h, not_lt.mpr h.le]
    · subst h
      simp [lt_irrefl]
    · simp [h, not_lt.mpr h.le]
  · intro hgt
    rw [compare_of_nums svc net cA cB q1 q2 h1 h2]
    simp [hgt]
  · intro heq
    subst heq
    rw [compare_of_nums svc net cA cB q1 q1 h1 h2]
    simp [lt_irrefl]

/-- Claim C8 witness: with Paris at 28 and Lyon at 22, the comparison is
invariant under swapping the cities and names Paris as the warmer city. -/
theorem compare_cities_swap_spec_witness :
    compare_cities svcX netTwo "Paris" "Lyon" = compare_cities svcX netTwo "Lyon" "Paris"
    ∧ compare_cities svcX netTwo "Paris" "Lyon" =
        .ok (.str ("Paris" ++ " est plus chaud que " ++ "Lyon" ++ " (" ++
          fmtQ 28 ++ "°C > " ++ fmtQ 22 ++ "°C)")) :=
  ⟨(compare_cities_swap_spec svcX netTwo "Paris" "Lyon" 28 22 rfl rfl).1,
   (compare_cities_swap_spec svcX netTwo "Paris" "Lyon" 28 22 rfl rfl).2.1 (by norm_num)⟩

/-- Claim C2 (amended): `get_temperature` returns the numeric value at
`main.temp` whenever the request completes with a non-error status and a body
whose `main` is an object containing `temp`; it returns `None` on a thrown
transport error, on any 4xx/5xx status (`raise_for_status` raises exactly for
those), on a body that is not valid JSON, and on an object body lacking
`main`.  (The amendment: statuses outside 2xx but also outside 400–599 do not
raise and are treated like successes, and a truthy body whose `main` has the
wrong shape raises instead of returning `None`; see the counterexample.) -/
theorem get_temperature_outcomes (svc : Service) (net : HttpReq → NetResult) (city : String) :
    (net (weatherReq svc city) = .exn → get_temperature svc net city = .ok Json.null)
    ∧ (∀ status body, 400 ≤ status → status < 600 →
        net (weatherReq svc city) = .resp status body →
        get_temperature svc net city = .ok Json.null)
    ∧ (∀ status, net (weatherReq svc city) = .resp status none →
        get_temperature svc net city = .ok Json.null)
    ∧ (∀ status fs ms q, ¬(400 ≤ status ∧ status < 600) →
        net (weatherReq svc city) = .resp status (some (.obj fs)) →
        fs.lookup "main" = some (.obj ms) → ms.lookup "temp" = some (.num q) →
        get_temperature svc net city = .ok (.num q))
    ∧ (∀ status fs, ¬(400 ≤ status ∧ status < 600) →
        net (weatherReq svc city) = .resp status (some (.obj fs)) →
        fs.lookup "main" = none →
        get_temperature svc net city = .ok Json.null) := by
  refine ⟨?_, ?_, ?_, ?_, ?_⟩
  · intro h
    simp only [weatherReq] at h
    exact get_temperature_of_null svc net city (by simp [make_request, h])
  · intro status body hle hlt h
    simp only [weatherReq] at h
    exact get_temperature_of_null svc net city (by simp [make_request, h, hle, hlt])
  · intro status h
    simp only [weatherReq] at h
    exact get_temperature_of_null svc net city (by simp [make_request, h])
  · intro status fs ms q hstat h hm ht
    simp only [weatherReq] at h
    exact get_temperature_of_shape svc net city fs ms (.num q)
      (by simp [make_request, h, hstat]) hm ht
  · intro status fs hstat h hm
    simp only [weatherReq] at h
    exact get_temperature_of_no_main svc net city fs (by simp [make_request, h, hstat]) hm

/-- Claim C2 witness: a 200 response with `main.temp = 25.5` yields
temperature 25.5. -/
theorem get_temperature_outcomes_witness :
    get_temperature svcX netParis "Paris" = .ok (.num (mkRat 51 2)) :=
  (get_temperature_outcomes svcX netParis "Paris").2.2.2.1 200
    [("main", .obj [("temp", .num (mkRat 51 2))]),
     ("weather", .arr [.obj [("main", .str "Clear")]])]
    [("temp", .num (mkRat 51 2))] (mkRat 51 2) (by decide) rfl rfl rfl

/-- Claim C2 counterexample: a 200 response whose `main` is the number 5 (a
malformed body) makes `get_temperature` raise `TypeError` instead of
returning `None`, and a 300 response (non-2xx) carrying `main.temp = 7`
returns 7 instead of `None`. -/
theorem get_temperature_claim_cex :
    get_temperature svcX netMalformed "Paris" = .error .typeError
    ∧ get_temperature svcX netRedirect "Paris" = .ok (.num 7) :=
  ⟨rfl, rfl⟩

/-- Claim C3 (amended): `_make_request` collapses every failure to an
ordinary `None` body, and each read-path operation returns an ordinary value
(a result or `None`, never an exception) whenever the body it receives is
`None`, an object lacking the guarded keys, or an object whose accessed
fields have the expected shapes; `get_forecast` does so for every object
body, and `compare_cities` whenever both lookups complete with `None` or
numeric temperatures.  (The amendment: for a truthy body whose accessed
fields have unexpected shapes, a lookup exception escapes to the caller; see
the counterexample.) -/
theorem read_path_ordinary_values (svc : Service) (net : HttpReq → NetResult)
    (city : String) (days : ℤ) (c1 c2 : String) :
    (make_request svc net "weather" [("q", Json.str city)] = Json.null →
      get_temperature svc net city = .ok Json.null
      ∧ is_good_weather svc net city = .ok Json.null)
    ∧ (∀ fs, make_request svc net "weather" [("q", Json.str city)] = .obj fs →
        fs.lookup "main" = none →
        get_temperature svc net city = .ok Json.null
        ∧ is_good_weather svc net city = .ok Json.null)
    ∧ (∀ fs, make_request svc net "weather" [("q", Json.str city)] = .obj fs →
        fs.lookup "weather" = none →
        is_good_weather svc net city = .ok Json.null)
    ∧ (∀ fs ms t, make_request svc net "weather" [("q", Json.str city)] = .obj fs →
        fs.lookup "main" = some (.obj ms) → ms.lookup "temp" = some t →
        get_temperature svc net city = .ok t)
    ∧ (∀ fs ms wfs q ws cond,
        make_request svc net "weather" [("q", Json.str city)] = .obj fs →
        fs.lookup "main" = some (.obj ms) → ms.lookup "temp" = some (.num q) →
        fs.lookup "weather" = some (.arr (.obj wfs :: ws)) →
        wfs.lookup "main" = some (.str cond) →
        ∃ b, is_good_weather svc net city = .ok (.b b))
    ∧ (make_request svc net "forecast"
        [("q", Json.str city), ("cnt", Json.num ((days : ℚ) * 8))] = Json.null →
        get_forecast svc net city days = .ok Json.null)
    ∧ (∀ gs, make_request svc net "forecast"
        [("q", Json.str city), ("cnt", Json.num ((days : ℚ) * 8))] = .obj gs →
        ∃ v, get_forecast svc net city days = .ok v)
    ∧ (∀ v1 v2, get_temperature svc net c1 = .ok v1 → get_temperature svc net c2 = .ok v2 →
        (v1 = Json.null ∨ v2 = Json.null ∨ ∃ p q, v1 = .num p ∧ v2 = .num q) →
        ∃ v, compare_cities svc net c1 c2 = .ok v) := by
  refine ⟨?_, ?_, ?_, ?_, ?_, ?_, ?_, ?_⟩
  · intro h
    exact ⟨get_temperature_of_null svc net city h, is_good_weather_of_null svc net city h⟩
  · intro fs h hm
    exact ⟨get_temperature_of_no_main svc net city fs h hm,
      is_good_weather_of_no_main svc net city fs h hm⟩
  · intro fs h hw
    cases hmm : fs.lookup "main" with
    | none => exact is_good_weather_of_no_main svc net city fs h hmm
    | some m => exact is_good_weather_of_no_weather svc net city fs h (by simp [hmm]) hw
  · intro fs ms t h hm ht
    exact get_temperature_of_shape svc net city fs ms t h hm ht
  · intro fs ms wfs q ws cond h hm ht hw hc
    exact ⟨_, is_good_weather_of_shape svc net city fs ms wfs q ws cond h hm ht hw hc⟩
  · intro h
    exact get_forecast_of_null svc net city days h
  · intro gs h
    cases hl : gs.lookup "list" with
    | none => exact ⟨_, (get_forecast_of_obj svc net city days gs h).1 hl⟩
    | some v => exact ⟨v, (get_forecast_of_obj svc net city days gs h).2 v hl⟩
  · intro v1 v2 h1 h2 hsh
    rcases hsh with rfl | rfl | ⟨p, q, rfl, rfl⟩
    · exact ⟨_, compare_sentinel_of_null svc net c1 c2 _ v2 h1 h2 (Or.inl rfl)⟩
    · exact ⟨_, compare_sentinel_of_null svc net c1 c2 v1 _ h1 h2 (Or.inr rfl)⟩
    · rw [compare_of_nums svc net c1 c2 p q h1 h2]
      split_ifs <;> exact ⟨_, rfl⟩

/-- Claim C3 witness: with the transport down, both weather lookups return
ordinary `None` values. -/
theorem read_path_ordinary_values_witness :
    get_temperature svcX netDown "Paris" = .ok Json.null
    ∧ is_good_weather svcX netDown "Paris" = .ok Json.null :=
  (read_path_ordinary_values svcX netDown "Paris" 5 "Paris" "Lyon").1 rfl

/-- Claim C3 counterexample: a 200 response body `{"main": null}` makes
`get_temperature` raise `TypeError` (from `None["temp"]`) — an exception
escapes a read-path operation, refuting the claim for arbitrary JSON
shapes. -/
theorem read_path_claim_cex :
    get_temperature svcX netMainNull "Paris" = .error .typeError := rfl

/-- Claim C4 (amended): for every object body with well-shaped `main.temp`
(a number) and `weather` (nonempty array whose head holds a string `main`),
`is_good_weather` returns true iff `temp > 20` and the lowercased condition
does not contain "rain"; in particular it returns false at `temp = 20`
exactly and false at `temp = 25` with condition "Rain"; and it returns `None`
for every object body lacking `main` or lacking `weather`.  (The amendment:
restricted to object bodies with well-shaped accessed fields — a body
containing ill-shaped `main`/`weather` raises; see the counterexample.) -/
theorem is_good_weather_spec (svc : Service) (net : HttpReq → NetResult) (city : String) :
    (∀ fs, make_request svc net "weather" [("q", Json.str city)] = .obj fs →
        (fs.lookup "main" = none ∨ fs.lookup "weather" = none) →
        is_good_weather svc net city = .ok Json.null)
    ∧ (∀ fs ms wfs q ws cond,
        make_request svc net "weather" [("q", Json.str city)] = .obj fs →
        fs.lookup "main" = some (.obj ms) → ms.lookup "temp" = some (.num q) →
        fs.lookup "weather" = some (.arr (.obj wfs :: ws)) →
        wfs.lookup "main" = some (.str cond) →
        is_good_weather svc net city =
          .ok (.b (decide (20 < q) && !hasSubstr "rain" (strLower cond))))
    ∧ (∀ fs ms wfs ws cond,
        make_request svc net "weather" [("q", Json.str city)] = .obj fs →
        fs.lookup "main" = some (.obj ms) → ms.lookup "temp" = some (.num 20) →
        fs.lookup "weather" = some (.arr (.obj wfs :: ws)) →
        wfs.lookup "main" = some (.str cond) →
        is_good_weather svc net city = .ok (.b false))
    ∧ (∀ fs ms wfs ws,
        make_request svc net "weather" [("q", Json.str city)] = .obj fs →
        fs.lookup "main" = some (.obj ms) → ms.lookup "temp" = some (.num 25) →
        fs.lookup "weather" = some (.arr (.obj wfs :: ws)) →
        wfs.lookup "main" = some (.str "Rain") →
        is_good_weather svc net city = .ok (.b false)) := by
  refine ⟨?_, ?_, ?_, ?_⟩
  · intro fs h hd
    rcases hd with hm | hw
    · exact is_good_weather_of_no_main svc net city fs h hm
    · cases hmm : fs.lookup "main" with
      | none => exact is_good_weather_of_no_main svc net city fs h hmm
      | some m => exact is_good_weather_of_no_weather svc net city fs h (by simp [hmm]) hw
  · intro fs ms wfs q ws cond h hm ht hw hc
    exact is_good_weather_of_shape svc net city fs ms wfs q ws cond h hm ht hw hc
  · intro fs ms wfs ws cond h hm ht hw hc
    rw [is_good_weather_of_shape svc net city fs ms wfs 20 ws cond h hm ht hw hc]
    simp
  · intro fs ms wfs ws h hm ht hw hc
    rw [is_good_weather_of_shape svc net city fs ms wfs 25 ws "Rain" h hm ht hw hc]
    rfl

/-- Claim C4 witness: at 25 degrees with condition "Rain",
`is_good_weather` returns false. -/
theorem is_good_weather_spec_witness :
    is_good_weather svcX netRain "Lyon" = .ok (.b false) :=
  (is_good_weather_spec svcX netRain "Lyon").2.2.2
    [("main", .obj [("temp", .num 25)]), ("weather", .arr [.obj [("main", .str "Rain")]])]
    [("temp", .num 25)] [("main", .str "Rain")] [] rfl rfl rfl rfl rfl

/-- Claim C4 counterexample: the body `{"main": 1, "weather": 1}` contains
both `main` and `weather`, yet `is_good_weather` raises `TypeError` instead
of returning a boolean or `None`. -/
theorem is_good_weather_claim_cex :
    is_good_weather svcX netBothBad "Paris" = .error .typeError := rfl

/-- Claim C9 (amended): `get_forecast` issues its request with parameter
`cnt = days * 8` (its result depends on the transport only through that one
request), and returns the value at the body's `list` field when the body is
an object containing it; it returns `None` on a thrown transport error, a
non-JSON body, or an object body lacking `list`.  (The amendment: a truthy
non-object body raises instead of returning `None`; see the
counterexample.) -/
theorem get_forecast_spec (svc : Service) (net net' : HttpReq → NetResult)
    (city : String) (days : ℤ) :
    (forecastReq svc city days).params.lookup "cnt" = some (Json.num ((days : ℚ) * 8))
    ∧ (net (forecastReq svc city days) = net' (forecastReq svc city days) →
        get_forecast svc net city days = get_forecast svc net' city days)
    ∧ (net (forecastReq svc city days) = .exn →
        get_forecast svc net city days = .ok Json.null)
    ∧ (∀ status, net (forecastReq svc city days) = .resp status none →
        get_forecast svc net city days = .ok Json.null)
    ∧ (∀ status gs, ¬(400 ≤ status ∧ status < 600) →
        net (forecastReq svc city days) = .resp status (some (.obj gs)) →
        (gs.lookup "list" = none → get_forecast svc net city days = .ok Json.null)
        ∧ ∀ v, gs.lookup "list" = some v → get_forecast svc net city days = .ok v) := by
  refine ⟨rfl, ?_, ?_, ?_, ?_⟩
  · intro h
    simp only [forecastReq] at h
    simp only [get_forecast, make_request, h]
  · intro h
    simp only [forecastReq] at h
    exact get_forecast_of_null svc net city days (by simp [make_request, h])
  · intro status h
    simp only [forecastReq] at h
    exact get_forecast_of_null svc net city days (by simp [make_request, h])
  · intro status gs hstat h
    simp only [forecastReq] at h
    exact get_forecast_of_obj svc net city days gs (by simp [make_request, h, hstat])

/-- Claim C9 witness: for one day the request carries `cnt = 8`, and a body
with a two-entry `list` yields that list. -/
theorem get_forecast_spec_witness :
    (forecastReq svcX "Paris" 1).params.lookup "cnt" =
        some (Json.num (((1 : ℤ) : ℚ) * 8))
    ∧ get_forecast svcX netForecast "Paris" 1 = .ok (.arr [.num 1, .num 2]) :=
  ⟨(get_forecast_spec svcX netForecast netForecast "Paris" 1).1,
   ((get_forecast_spec svcX netForecast netForecast "Paris" 1).2.2.2.2 200
      [("list", .arr [.num 1, .num 2])] (by decide) rfl).2 (.arr [.num 1, .num 2]) rfl⟩

/-- Claim C9 counterexample: the truthy body `5` lacks `list`, yet
`get_forecast` raises `TypeError` instead of returning `None`. -/
theorem get_forecast_claim_cex :
    get_forecast svcX netNum5 "Paris" 5 = .error .typeError := rfl
